import Mathlib

/-!
Verification development for the `ScanRegistration` module of the
loam_velodyne scan-registration pipeline (`src/lib/ScanRegistration.cpp`).

The embedding is shallow: machine floating-point scalars are modelled as
rational numbers, transcendental library functions (`sin`, `cos`, the
roll/pitch/yaw extraction of `tf::Matrix3x3::getRPY`) are taken as explicit
function parameters, the ROS parameter server is modelled as a record of
optional values (an option is `some v` exactly when `getParam` would have
returned `true` and written `v`), and ROS side effects (subscriptions,
advertisements, published messages) are modelled as explicit data returned
by the embedded functions.
-/

namespace Loam

/-- Three-component vector with rational coordinates (models the float
vector `Vector3` used for accelerations and points). -/
structure Vector3 where
  x : ℚ
  y : ℚ
  z : ℚ
  deriving DecidableEq, Repr

/-- Quaternion with rational coordinates (models `tf::Quaternion` and the
rotation part of the sensor-to-lidar transform). -/
structure Quat where
  w : ℚ
  x : ℚ
  y : ℚ
  z : ℚ
  deriving DecidableEq, Repr

/-- Hamilton product of two quaternions. -/
def quatMul (a b : Quat) : Quat :=
  { w := a.w * b.w - a.x * b.x - a.y * b.y - a.z * b.z
    x := a.w * b.x + a.x * b.w + a.y * b.z - a.z * b.y
    y := a.w * b.y - a.x * b.z + a.y * b.w + a.z * b.x
    z := a.w * b.z + a.x * b.y - a.y * b.x + a.z * b.w }

/-- Rotation of a vector by a (unit) quaternion, via the standard
q * v * conj q expansion. -/
def rotateVec (q : Quat) (v : Vector3) : Vector3 :=
  let t2 := q.w * q.x
  let t3 := q.w * q.y
  let t4 := q.w * q.z
  let t5 := -q.x * q.x
  let t6 := q.x * q.y
  let t7 := q.x * q.z
  let t8 := -q.y * q.y
  let t9 := q.y * q.z
  let t10 := -q.z * q.z
  { x := 2 * ((t8 + t10) * v.x + (t6 - t4) * v.y + (t3 + t7) * v.z) + v.x
    y := 2 * ((t4 + t6) * v.x + (t5 + t10) * v.y + (t9 - t2) * v.z) + v.y
    z := 2 * ((t7 - t3) * v.x + (t2 + t9) * v.y + (t5 + t8) * v.z) + v.z }

/-- Inertial sample as delivered on the IMU topic (models
`sensor_msgs::Imu`): header stamp, orientation quaternion, angular
velocity and linear acceleration. -/
structure Imu where
  stamp : ℚ
  orientation : Quat
  angular_velocity : Vector3
  linear_acceleration : Vector3
  deriving DecidableEq, Repr

/-- Inertial state record built by `handleIMUMessage` and handed to
`updateIMUData` (models `loam::IMUState`). -/
structure IMUState where
  stamp : ℚ
  roll : ℚ
  pitch : ℚ
  yaw : ℚ
  acceleration : Vector3
  deriving DecidableEq, Repr

/-- Modelled from the spec: the helper `transformIMU` (declared in
`math_utils.h`, whose definition is not among the sources of this
repository) rotates a raw inertial sample into the lidar-aligned frame
using the fixed sensor-to-lidar rotation: the orientation is composed with
the rotation and the angular velocity and linear acceleration vectors are
rotated; the timestamp is unchanged. -/
def transformIMU (imuIn : Imu) (T : Quat) : Imu :=
  { stamp := imuIn.stamp
    orientation := quatMul T imuIn.orientation
    angular_velocity := rotateVec T imuIn.angular_velocity
    linear_acceleration := rotateVec T imuIn.linear_acceleration }

/-- Mutable fields of `ScanRegistration` touched by the embedded code:
the transform flag, the frame names, the IMU input topic and the cached
sensor-to-lidar transform. -/
structure ScanRegState where
  transformIMU : Bool
  imuFrame : String
  lidarFrame : String
  imuInputTopic : String
  T_lidar_imu : Quat
  deriving DecidableEq, Repr

/-- Sample selection at the top of `handleIMUMessage` (lines 232-238):
when `_transformIMU` is set the incoming sample is rotated by the cached
sensor-to-lidar transform, otherwise it is copied unchanged. -/
def rotatedSample (st : ScanRegState) (imuIn : Imu) : Imu :=
  if st.transformIMU then transformIMU imuIn st.T_lidar_imu else imuIn

/-- Body of `handleIMUMessage` after sample selection (lines 243-262):
extract roll, pitch and yaw from the orientation quaternion of the
(possibly rotated) sample, compensate gravity (constant 9.81) on the
swizzled acceleration axes, and build the `IMUState` that is handed to
`updateIMUData`. The library functions `sin`, `cos` and the quaternion
roll/pitch/yaw extraction are explicit parameters. -/
def imuStateOf (sinf cosf : ℚ → ℚ) (rpy : Quat → ℚ × ℚ × ℚ) (sample : Imu) :
    IMUState :=
  let roll := (rpy sample.orientation).1
  let pitch := (rpy sample.orientation).2.1
  let yaw := (rpy sample.orientation).2.2
  { stamp := sample.stamp
    roll := roll
    pitch := pitch
    yaw := yaw
    acceleration :=
      { x := sample.linear_acceleration.y - sinf roll * cosf pitch * (9.81 : ℚ)
        y := sample.linear_acceleration.z - cosf roll * cosf pitch * (9.81 : ℚ)
        z := sample.linear_acceleration.x + sinf pitch * (9.81 : ℚ) } }

/-- `ScanRegistration::handleIMUMessage` (lines 229-263): select the
(possibly rotated) sample and build the inertial state that is appended to
the inertial history by `updateIMUData` (the latter lives outside the
sources of this repository). -/
def handleIMUMessage (sinf cosf : ℚ → ℚ) (rpy : Quat → ℚ × ℚ × ℚ)
    (st : ScanRegState) (imuIn : Imu) : IMUState :=
  imuStateOf sinf cosf rpy (rotatedSample st imuIn)

/-- One-time sensor-to-lidar transform resolution loop of
`ScanRegistration::parseParams` (lines 167-193), as a total function.
`lookup n` is the outcome of the n-th `lookupTransform` attempt (`some T`
when the transform is available, `none` when the lookup throws). The
result is the final loop counter (the number of lookup attempts), the
final `_transformIMU` flag and the final cached transform. -/
def tfLoopRun (lookup : ℕ → Option Quat) (counter : ℕ) (tIMU : Bool)
    (T : Quat) : ℕ × Bool × Quat :=
  match lookup (counter + 1) with
  | some Tfound =>
      if counter + 1 > 10 then (counter + 1, false, Tfound)
      else (counter + 1, tIMU, Tfound)
  | none =>
      if _h : counter + 1 > 10 then (counter + 1, false, T)
      else tfLoopRun lookup (counter + 1) tIMU T
termination_by 11 - counter
decreasing_by omega

/-- Fuel-indexed small-step version of the transform resolution loop: one
unit of fuel per iteration of the `while` loop; `none` means the fuel was
exhausted before the loop exited. -/
def tfLoopFuel (lookup : ℕ → Option Quat) :
    ℕ → ℕ → Bool → Quat → Option (ℕ × Bool × Quat)
  | 0, _, _, _ => none
  | fuel + 1, counter, tIMU, T =>
      match lookup (counter + 1) with
      | some Tfound =>
          if counter + 1 > 10 then some (counter + 1, false, Tfound)
          else some (counter + 1, tIMU, Tfound)
      | none =>
          if counter + 1 > 10 then some (counter + 1, false, T)
          else tfLoopFuel lookup fuel (counter + 1) tIMU T

/-- Configuration record filled by `parseParams` (models
`loam::RegistrationParams`, whose definition lives outside the sources of
this repository; only the fields written by `parseParams` are modelled). -/
structure RegistrationParams where
  scanPeriod : ℚ
  imuHistorySize : ℤ
  nFeatureRegions : ℤ
  curvatureRegion : ℤ
  maxCornerSharp : ℤ
  maxCornerLessSharp : ℤ
  maxSurfaceFlat : ℤ
  surfaceCurvatureThreshold : ℚ
  lessFlatFilterSize : ℚ
  deriving DecidableEq, Repr

/-- Options read from the public node handle; a field is `some v` exactly
when `node.getParam` returns `true` with value `v`. -/
structure NodeHandleParams where
  scanPeriod : Option ℚ
  lidarFrame : Option String
  imuFrame : Option String
  transformImuData : Option Bool
  imuInputTopic : Option String
  deriving DecidableEq, Repr

/-- Options read from the private node handle; a field is `some v` exactly
when `privateNode.getParam` returns `true` with value `v`. -/
structure PrivateNodeParams where
  imuHistorySize : Option ℤ
  featureRegions : Option ℤ
  curvatureRegion : Option ℤ
  maxCornerSharp : Option ℤ
  maxCornerLessSharp : Option ℤ
  maxSurfaceFlat : Option ℤ
  surfaceCurvatureThreshold : Option ℚ
  lessFlatFilterSize : Option ℚ
  deriving DecidableEq, Repr

/-- One `getParam`-and-validate block of `parseParams`: when the option is
absent nothing happens; when it is supplied and fails the validity check,
`success` is cleared and the configuration is untouched; when it is
supplied and valid, the update is applied. -/
def applyParam {α : Type} (opt : Option α) (invalid : α → RegistrationParams → Bool)
    (set : α → RegistrationParams → RegistrationParams)
    (p : Bool × RegistrationParams) : Bool × RegistrationParams :=
  match opt with
  | none => p
  | some v => if invalid v p.2 then (false, p.2) else (p.1, set v p.2)

/-- The nine configuration blocks of `parseParams` (lines 49-144), in
source order. -/
def parseConfig (node : NodeHandleParams) (pn : PrivateNodeParams)
    (p : Bool × RegistrationParams) : Bool × RegistrationParams :=
  let p := applyParam node.scanPeriod (fun f _ => decide (f ≤ 0))
    (fun f c => { c with scanPeriod := f }) p
  let p := applyParam pn.imuHistorySize (fun i _ => decide (i < 1))
    (fun i c => { c with imuHistorySize := i }) p
  let p := applyParam pn.featureRegions (fun i _ => decide (i < 1))
    (fun i c => { c with nFeatureRegions := i }) p
  let p := applyParam pn.curvatureRegion (fun i _ => decide (i < 1))
    (fun i c => { c with curvatureRegion := i }) p
  let p := applyParam pn.maxCornerSharp (fun i _ => decide (i < 1))
    (fun i c => { c with maxCornerSharp := i, maxCornerLessSharp := 10 * i }) p
  let p := applyParam pn.maxCornerLessSharp (fun i c => decide (i < c.maxCornerSharp))
    (fun i c => { c with maxCornerLessSharp := i }) p
  let p := applyParam pn.maxSurfaceFlat (fun i _ => decide (i < 1))
    (fun i c => { c with maxSurfaceFlat := i }) p
  let p := applyParam pn.surfaceCurvatureThreshold (fun f _ => decide (f < 0.001))
    (fun f c => { c with surfaceCurvatureThreshold := f }) p
  let p := applyParam pn.lessFlatFilterSize (fun f _ => decide (f < 0.001))
    (fun f c => { c with lessFlatFilterSize := f }) p
  p

/-- The four frame and topic blocks of `parseParams` (lines 146-164), in
source order: each assigns the member field when the option is supplied. -/
def parseFrames (node : NodeHandleParams) (st : ScanRegState) : ScanRegState :=
  let st := match node.lidarFrame with
    | some s => { st with lidarFrame := s }
    | none => st
  let st := match node.imuFrame with
    | some s => { st with imuFrame := s }
    | none => st
  let st := match node.transformImuData with
    | some b => { st with transformIMU := b }
    | none => st
  let st := match node.imuInputTopic with
    | some s => { st with imuInputTopic := s }
    | none => st
  st

/-- Result of `ScanRegistration::parseParams`: the returned boolean, the
final configuration (passed by reference in the source) and the final
member state. -/
structure ParseResult where
  success : Bool
  config : RegistrationParams
  state : ScanRegState
  deriving DecidableEq, Repr

/-- `ScanRegistration::parseParams` (lines 40-196): validate and apply the
supplied options, apply the frame and topic options, then, when
`_transformIMU` is set, run the bounded transform resolution loop. The
returned boolean reflects only option validation. -/
def parseParams (lookup : ℕ → Option Quat) (node : NodeHandleParams)
    (pn : PrivateNodeParams) (st : ScanRegState) (cfg : RegistrationParams) :
    ParseResult :=
  let p := parseConfig node pn (true, cfg)
  let st := parseFrames node st
  let st :=
    if st.transformIMU then
      let r := tfLoopRun lookup 0 st.transformIMU st.T_lidar_imu
      { st with transformIMU := r.2.1, T_lidar_imu := r.2.2 }
    else st
  { success := p.1, config := p.2, state := st }

/-- Result of `ScanRegistration::setupROS`: the returned boolean, the
final configuration and member state, and the ROS wiring created by the
call, as lists of (topic, queue size) pairs. -/
structure SetupResult where
  success : Bool
  config : RegistrationParams
  state : ScanRegState
  subscriptions : List (String × ℕ)
  advertisements : List (String × ℕ)
  deriving DecidableEq, Repr

/-- `ScanRegistration::setupROS` (lines 198-227): reset the transform
flag, the frame names and the IMU input topic to their defaults, parse the
parameters, and on success subscribe to the IMU topic and advertise the
six output topics; on parse failure return immediately with no wiring. -/
def setupROS (lookup : ℕ → Option Quat) (node : NodeHandleParams)
    (pn : PrivateNodeParams) (st : ScanRegState) (cfg : RegistrationParams) :
    SetupResult :=
  let st := { st with transformIMU := false, imuFrame := "/imu",
                      lidarFrame := "/camera", imuInputTopic := "/imu/data" }
  let r := parseParams lookup node pn st cfg
  if r.success then
    { success := true
      config := r.config
      state := r.state
      subscriptions := [(r.state.imuInputTopic, 50)]
      advertisements := [("velodyne_cloud_2", 2), ("laser_cloud_sharp", 2),
        ("laser_cloud_less_sharp", 2), ("laser_cloud_flat", 2),
        ("laser_cloud_less_flat", 2), ("imu_trans", 5)] }
  else
    { success := false
      config := r.config
      state := r.state
      subscriptions := []
      advertisements := [] }

/-- Modelled from the spec: the per-sweep data exposed by the accessors of
the base class (`sweepStart`, `laserCloud`, `cornerPointsSharp`,
`cornerPointsLessSharp`, `surfacePointsFlat`, `surfacePointsLessFlat`,
`imuTransform`), which lives outside the sources of this repository — the
full compensated cloud, the four feature subsets and the per-sweep motion
summary, all accumulated for the current sweep, plus the sweep start
time. -/
structure SweepData where
  sweepStart : ℚ
  laserCloud : List Vector3
  cornerPointsSharp : List Vector3
  cornerPointsLessSharp : List Vector3
  surfacePointsFlat : List Vector3
  surfacePointsLessFlat : List Vector3
  imuTransform : List Vector3
  deriving DecidableEq, Repr

/-- One message published by `publishCloudMsg`: the cloud, the stamp and
the frame id written into its header. -/
structure CloudMsg where
  cloud : List Vector3
  stamp : ℚ
  frame : String
  deriving DecidableEq, Repr

/-- Modelled from the spec: `publishCloudMsg` (common.h, outside the
sources of this repository) publishes the given cloud stamped with the
given time and frame id. -/
def publishCloudMsg (cloud : List Vector3) (stamp : ℚ) (frame : String) :
    CloudMsg :=
  { cloud := cloud, stamp := stamp, frame := frame }

/-- `ScanRegistration::publishResult` (lines 265-281): publish the full
cloud, the four feature subsets and the IMU transform summary, all stamped
with the sweep start time and the lidar frame, in source order. -/
def publishResult (st : ScanRegState) (d : SweepData) : List CloudMsg :=
  [ publishCloudMsg d.laserCloud d.sweepStart st.lidarFrame,
    publishCloudMsg d.cornerPointsSharp d.sweepStart st.lidarFrame,
    publishCloudMsg d.cornerPointsLessSharp d.sweepStart st.lidarFrame,
    publishCloudMsg d.surfacePointsFlat d.sweepStart st.lidarFrame,
    publishCloudMsg d.surfacePointsLessFlat d.sweepStart st.lidarFrame,
    publishCloudMsg d.imuTransform d.sweepStart st.lidarFrame ]

/-- Validity of one optional value: an absent option is vacuously valid. -/
def optAll {α : Type} (o : Option α) (p : α → Bool) : Bool :=
  match o with
  | none => true
  | some v => p v

/-- Final value of a float field validated with `f ≤ 0` rejection: the
supplied value when supplied and valid, the prior value otherwise. -/
def appliedPosFloat (o : Option ℚ) (old : ℚ) : ℚ :=
  match o with
  | none => old
  | some f => if f ≤ 0 then old else f

/-- Final value of an integer field validated with `i < 1` rejection. -/
def appliedGeOneInt (o : Option ℤ) (old : ℤ) : ℤ :=
  match o with
  | none => old
  | some i => if i < 1 then old else i

/-- Final value of a float field validated with `f < 0.001` rejection. -/
def appliedThreshold (o : Option ℚ) (old : ℚ) : ℚ :=
  match o with
  | none => old
  | some f => if f < 0.001 then old else f

/-- Value of `maxCornerLessSharp` right after the `maxCornerSharp` block:
the implied default `10 * v` when `maxCornerSharp` is supplied and valid,
the prior value otherwise. -/
def appliedTimesTen (o : Option ℤ) (old : ℤ) : ℤ :=
  match o with
  | none => old
  | some i => if i < 1 then old else 10 * i

/-- The `maxCornerSharp` value in force when the `maxCornerLessSharp`
constraint is checked: the supplied value when it is supplied and valid,
the prior configuration value otherwise. -/
def effectiveMaxCornerSharp (pn : PrivateNodeParams)
    (cfg : RegistrationParams) : ℤ :=
  appliedGeOneInt pn.maxCornerSharp cfg.maxCornerSharp

/-- Value written into `maxCornerLessSharp` by the block that validates
the `maxCornerLessSharp` option (relative to the original configuration):
the supplied value when it passes the `≥ maxCornerSharp` check, the
implied default from the `maxCornerSharp` block otherwise. -/
def appliedMaxCornerLessSharp (pn : PrivateNodeParams)
    (c : RegistrationParams) : ℤ :=
  match pn.maxCornerLessSharp with
  | none => appliedTimesTen pn.maxCornerSharp c.maxCornerLessSharp
  | some w =>
      if w < effectiveMaxCornerSharp pn c then
        appliedTimesTen pn.maxCornerSharp c.maxCornerLessSharp
      else w

/-- Constraint table of the spec (section 6): every supplied option
satisfies its constraint — scanPeriod > 0, imuHistorySize ≥ 1,
featureRegions ≥ 1, curvatureRegion ≥ 1, maxCornerSharp ≥ 1,
maxCornerLessSharp ≥ maxCornerSharp, maxSurfaceFlat ≥ 1,
surfaceCurvatureThreshold ≥ 0.001, lessFlatFilterSize ≥ 0.001. -/
def suppliedValid (node : NodeHandleParams) (pn : PrivateNodeParams)
    (cfg : RegistrationParams) : Bool :=
  optAll node.scanPeriod (fun f => decide (0 < f)) &&
  optAll pn.imuHistorySize (fun i => decide (1 ≤ i)) &&
  optAll pn.featureRegions (fun i => decide (1 ≤ i)) &&
  optAll pn.curvatureRegion (fun i => decide (1 ≤ i)) &&
  optAll pn.maxCornerSharp (fun i => decide (1 ≤ i)) &&
  optAll pn.maxCornerLessSharp (fun i => decide (effectiveMaxCornerSharp pn cfg ≤ i)) &&
  optAll pn.maxSurfaceFlat (fun i => decide (1 ≤ i)) &&
  optAll pn.surfaceCurvatureThreshold (fun f => decide (0.001 ≤ f)) &&
  optAll pn.lessFlatFilterSize (fun f => decide (0.001 ≤ f))

/-- Value written into `maxCornerLessSharp` by its own validation block,
relative to the configuration in force when the block runs. -/
def appliedLessSharpAt (o : Option ℤ) (c : RegistrationParams) : ℤ :=
  match o with
  | none => c.maxCornerLessSharp
  | some w => if w < c.maxCornerSharp then c.maxCornerLessSharp else w

/-- The state with which `setupROS` calls `parseParams`: the incoming
member state with the four defaulted fields reset (lines 201-204). -/
def resetState (st : ScanRegState) : ScanRegState :=
  { st with transformIMU := false, imuFrame := "/imu",
            lidarFrame := "/camera", imuInputTopic := "/imu/data" }

/-- Identity quaternion, used as a concrete cached transform. -/
def exQuat : Quat := { w := 1, x := 0, y := 0, z := 0 }

/-- Concrete member state for instantiations. -/
def exState : ScanRegState :=
  { transformIMU := false, imuFrame := "/imu", lidarFrame := "/camera",
    imuInputTopic := "/imu/data", T_lidar_imu := exQuat }

/-- Concrete prior configuration for instantiations (the upstream default
values). -/
def exConfig : RegistrationParams :=
  { scanPeriod := 25, imuHistorySize := 200, nFeatureRegions := 6,
    curvatureRegion := 5, maxCornerSharp := 2, maxCornerLessSharp := 20,
    maxSurfaceFlat := 4, surfaceCurvatureThreshold := 3,
    lessFlatFilterSize := 7 }

/-- Public node handle with no option supplied. -/
def exNodeNone : NodeHandleParams :=
  { scanPeriod := none, lidarFrame := none, imuFrame := none,
    transformImuData := none, imuInputTopic := none }

/-- Private node handle with no option supplied. -/
def exPnNone : PrivateNodeParams :=
  { imuHistorySize := none, featureRegions := none, curvatureRegion := none,
    maxCornerSharp := none, maxCornerLessSharp := none, maxSurfaceFlat := none,
    surfaceCurvatureThreshold := none, lessFlatFilterSize := none }

/-- Lookup sequence on which the transform never becomes available. -/
def exLookupNone : ℕ → Option Quat := fun _ => none

/-- Public node handle supplying only a valid scanPeriod. -/
def exNodeValidScan : NodeHandleParams :=
  { exNodeNone with scanPeriod := some 1 }

/-- Private node handle supplying only an invalid imuHistorySize. -/
def exPnBadHistory : PrivateNodeParams :=
  { exPnNone with imuHistorySize := some 0 }

/-- Private node handle supplying only a valid maxCornerSharp. -/
def exPnSharpOnly : PrivateNodeParams :=
  { exPnNone with maxCornerSharp := some 3 }

/-- Private node handle supplying only an invalid maxCornerSharp. -/
def exPnSharpInvalid : PrivateNodeParams :=
  { exPnNone with maxCornerSharp := some 0 }

/-- Private node handle supplying a valid maxCornerSharp together with a
maxCornerLessSharp below it. -/
def exPnSharpAndBadLess : PrivateNodeParams :=
  { exPnNone with maxCornerSharp := some 3, maxCornerLessSharp := some 2 }

/-- Concrete inertial sample. -/
def exImu : Imu :=
  { stamp := 0, orientation := exQuat,
    angular_velocity := { x := 0, y := 0, z := 0 },
    linear_acceleration := { x := 1, y := 2, z := 3 } }

/-- Concrete stand-in for the library sine. -/
def exSin : ℚ → ℚ := fun _ => 0

/-- Concrete stand-in for the library cosine. -/
def exCos : ℚ → ℚ := fun _ => 1

/-- Concrete stand-in for the roll/pitch/yaw extraction. -/
def exRpy : Quat → ℚ × ℚ × ℚ := fun _ => (0, 0, 0)

/-- Concrete sweep data. -/
def exSweep : SweepData :=
  { sweepStart := 5, laserCloud := [{ x := 1, y := 0, z := 0 }],
    cornerPointsSharp := [], cornerPointsLessSharp := [],
    surfacePointsFlat := [], surfacePointsLessFlat := [],
    imuTransform := [] }

theorem bool_not_decide_lt_int (a b : ℤ) :
    (!decide (a < b)) = decide (b ≤ a) := by
  rw [← decide_not]
  exact decide_eq_decide.mpr not_lt

theorem bool_not_decide_lt_rat (a b : ℚ) :
    (!decide (a < b)) = decide (b ≤ a) := by
  rw [← decide_not]
  exact decide_eq_decide.mpr not_lt

theorem bool_not_decide_le_rat (a b : ℚ) :
    (!decide (a ≤ b)) = decide (b < a) := by
  rw [← decide_not]
  exact decide_eq_decide.mpr not_le

theorem blkScanPeriod_eq (o : Option ℚ) (p : Bool × RegistrationParams) :
    applyParam o (fun f _ => decide (f ≤ 0))
      (fun f c => { c with scanPeriod := f }) p =
    (p.1 && optAll o (fun f => !decide (f ≤ 0)),
     { p.2 with scanPeriod := appliedPosFloat o p.2.scanPeriod }) := by
  cases o with
  | none => simp [applyParam, optAll, appliedPosFloat]
  | some f => by_cases h : f ≤ 0 <;> simp [applyParam, optAll, appliedPosFloat, h]

theorem blkImuHistorySize_eq (o : Option ℤ) (p : Bool × RegistrationParams) :
    applyParam o (fun i _ => decide (i < 1))
      (fun i c => { c with imuHistorySize := i }) p =
    (p.1 && optAll o (fun i => !decide (i < 1)),
     { p.2 with imuHistorySize := appliedGeOneInt o p.2.imuHistorySize }) := by
  cases o with
  | none => simp [applyParam, optAll, appliedGeOneInt]
  | some i => by_cases h : i < 1 <;> simp [applyParam, optAll, appliedGeOneInt, h]

theorem blkFeatureRegions_eq (o : Option ℤ) (p : Bool × RegistrationParams) :
    applyParam o (fun i _ => decide (i < 1))
      (fun i c => { c with nFeatureRegions := i }) p =
    (p.1 && optAll o (fun i => !decide (i < 1)),
     { p.2 with nFeatureRegions := appliedGeOneInt o p.2.nFeatureRegions }) := by
  cases o with
  | none => simp [applyParam, optAll, appliedGeOneInt]
  | some i => by_cases h : i < 1 <;> simp [applyParam, optAll, appliedGeOneInt, h]

theorem blkCurvatureRegion_eq (o : Option ℤ) (p : Bool × RegistrationParams) :
    applyParam o (fun i _ => decide (i < 1))
      (fun i c => { c with curvatureRegion := i }) p =
    (p.1 && optAll o (fun i => !decide (i < 1)),
     { p.2 with curvatureRegion := appliedGeOneInt o p.2.curvatureRegion }) := by
  cases o with
  | none => simp [applyParam, optAll, appliedGeOneInt]
  | some i => by_cases h : i < 1 <;> simp [applyParam, optAll, appliedGeOneInt, h]

theorem blkMaxCornerSharp_eq (o : Option ℤ) (p : Bool × RegistrationParams) :
    applyParam o (fun i _ => decide (i < 1))
      (fun i c => { c with maxCornerSharp := i, maxCornerLessSharp := 10 * i }) p =
    (p.1 && optAll o (fun i => !decide (i < 1)),
     { p.2 with maxCornerSharp := appliedGeOneInt o p.2.maxCornerSharp,
                maxCornerLessSharp := appliedTimesTen o p.2.maxCornerLessSharp }) := by
  cases o with
  | none => simp [applyParam, optAll, appliedGeOneInt, appliedTimesTen]
  | some i =>
      by_cases h : i < 1 <;>
        simp [applyParam, optAll, appliedGeOneInt, appliedTimesTen, h]

theorem blkMaxCornerLessSharp_eq (o : Option ℤ) (p : Bool × RegistrationParams) :
    applyParam o (fun i c => decide (i < c.maxCornerSharp))
      (fun i c => { c with maxCornerLessSharp := i }) p =
    (p.1 && optAll o (fun i => !decide (i < p.2.maxCornerSharp)),
     { p.2 with maxCornerLessSharp := appliedLessSharpAt o p.2 }) := by
  cases o with
  | none => simp [applyParam, optAll, appliedLessSharpAt]
  | some i =>
      by_cases h : i < p.2.maxCornerSharp <;>
        simp [applyParam, optAll, appliedLessSharpAt, h]

theorem blkMaxSurfaceFlat_eq (o : Option ℤ) (p : Bool × RegistrationParams) :
    applyParam o (fun i _ => decide (i < 1))
      (fun i c => { c with maxSurfaceFlat := i }) p =
    (p.1 && optAll o (fun i => !decide (i < 1)),
     { p.2 with maxSurfaceFlat := appliedGeOneInt o p.2.maxSurfaceFlat }) := by
  cases o with
  | none => simp [applyParam, optAll, appliedGeOneInt]
  | some i => by_cases h : i < 1 <;> simp [applyParam, optAll, appliedGeOneInt, h]

theorem blkSurfaceCurvatureThreshold_eq (o : Option ℚ) (p : Bool × RegistrationParams) :
    applyParam o (fun f _ => decide (f < 0.001))
      (fun f c => { c with surfaceCurvatureThreshold := f }) p =
    (p.1 && optAll o (fun f => !decide (f < 0.001)),
     { p.2 with surfaceCurvatureThreshold :=
        appliedThreshold o p.2.surfaceCurvatureThreshold }) := by
  cases o with
  | none => simp [applyParam, optAll, appliedThreshold]
  | some f => by_cases h : f < 0.001 <;> simp [applyParam, optAll, appliedThreshold, h]

theorem blkLessFlatFilterSize_eq (o : Option ℚ) (p : Bool × RegistrationParams) :
    applyParam o (fun f _ => decide (f < 0.001))
      (fun f c => { c with lessFlatFilterSize := f }) p =
    (p.1 && optAll o (fun f => !decide (f < 0.001)),
     { p.2 with lessFlatFilterSize := appliedThreshold o p.2.lessFlatFilterSize }) := by
  cases o with
  | none => simp [applyParam, optAll, appliedThreshold]
  | some f => by_cases h : f < 0.001 <;> simp [applyParam, optAll, appliedThreshold, h]

/-- Master characterization of the nine configuration blocks: the returned
flag is the incoming flag conjoined with validity of every supplied
option, and every configuration field receives its final value as a
function of the supplied options and the prior configuration. -/
theorem parseConfig_eq (node : NodeHandleParams) (pn : PrivateNodeParams)
    (p : Bool × RegistrationParams) :
    parseConfig node pn p =
    (p.1 && suppliedValid node pn p.2,
     { scanPeriod := appliedPosFloat node.scanPeriod p.2.scanPeriod
       imuHistorySize := appliedGeOneInt pn.imuHistorySize p.2.imuHistorySize
       nFeatureRegions := appliedGeOneInt pn.featureRegions p.2.nFeatureRegions
       curvatureRegion := appliedGeOneInt pn.curvatureRegion p.2.curvatureRegion
       maxCornerSharp := effectiveMaxCornerSharp pn p.2
       maxCornerLessSharp := appliedMaxCornerLessSharp pn p.2
       maxSurfaceFlat := appliedGeOneInt pn.maxSurfaceFlat p.2.maxSurfaceFlat
       surfaceCurvatureThreshold :=
         appliedThreshold pn.surfaceCurvatureThreshold p.2.surfaceCurvatureThreshold
       lessFlatFilterSize :=
         appliedThreshold pn.lessFlatFilterSize p.2.lessFlatFilterSize }) := by
  simp only [parseConfig, blkScanPeriod_eq, blkImuHistorySize_eq,
    blkFeatureRegions_eq, blkCurvatureRegion_eq, blkMaxCornerSharp_eq,
    blkMaxCornerLessSharp_eq, blkMaxSurfaceFlat_eq,
    blkSurfaceCurvatureThreshold_eq, blkLessFlatFilterSize_eq]
  simp only [suppliedValid, effectiveMaxCornerSharp, appliedMaxCornerLessSharp,
    appliedLessSharpAt, bool_not_decide_lt_int, bool_not_decide_lt_rat,
    bool_not_decide_le_rat, Bool.and_assoc]

/-- Characterization of the frame and topic blocks: each member field
receives the supplied option value, or keeps its prior value when the
option is absent. -/
theorem parseFrames_eq (node : NodeHandleParams) (st : ScanRegState) :
    parseFrames node st =
    { st with lidarFrame := node.lidarFrame.getD st.lidarFrame
              imuFrame := node.imuFrame.getD st.imuFrame
              transformIMU := node.transformImuData.getD st.transformIMU
              imuInputTopic := node.imuInputTopic.getD st.imuInputTopic } := by
  cases h1 : node.lidarFrame <;> cases h2 : node.imuFrame <;>
    cases h3 : node.transformImuData <;> cases h4 : node.imuInputTopic <;>
      simp [parseFrames, h1, h2, h3, h4]

/-- The boolean returned by `parseParams` is exactly validity of every
supplied option; it does not depend on the member state or on the
transform lookup outcomes. -/
theorem parseParams_success_eq (lookup : ℕ → Option Quat)
    (node : NodeHandleParams) (pn : PrivateNodeParams) (st : ScanRegState)
    (cfg : RegistrationParams) :
    (parseParams lookup node pn st cfg).success = suppliedValid node pn cfg := by
  simp [parseParams, parseConfig_eq]

/-- The configuration produced by `parseParams`, field by field. -/
theorem parseParams_config_eq (lookup : ℕ → Option Quat)
    (node : NodeHandleParams) (pn : PrivateNodeParams) (st : ScanRegState)
    (cfg : RegistrationParams) :
    (parseParams lookup node pn st cfg).config =
    { scanPeriod := appliedPosFloat node.scanPeriod cfg.scanPeriod
      imuHistorySize := appliedGeOneInt pn.imuHistorySize cfg.imuHistorySize
      nFeatureRegions := appliedGeOneInt pn.featureRegions cfg.nFeatureRegions
      curvatureRegion := appliedGeOneInt pn.curvatureRegion cfg.curvatureRegion
      maxCornerSharp := effectiveMaxCornerSharp pn cfg
      maxCornerLessSharp := appliedMaxCornerLessSharp pn cfg
      maxSurfaceFlat := appliedGeOneInt pn.maxSurfaceFlat cfg.maxSurfaceFlat
      surfaceCurvatureThreshold :=
        appliedThreshold pn.surfaceCurvatureThreshold cfg.surfaceCurvatureThreshold
      lessFlatFilterSize :=
        appliedThreshold pn.lessFlatFilterSize cfg.lessFlatFilterSize } := by
  simp [parseParams, parseConfig_eq]

/-- The member state produced by `parseParams`: the frame blocks applied
to the incoming state, then, when the transform flag ends up set, the
resolution loop started at counter 0. -/
theorem parseParams_state_eq (lookup : ℕ → Option Quat)
    (node : NodeHandleParams) (pn : PrivateNodeParams) (st : ScanRegState)
    (cfg : RegistrationParams) :
    (parseParams lookup node pn st cfg).state =
    (if (parseFrames node st).transformIMU then
      { parseFrames node st with
          transformIMU :=
            (tfLoopRun lookup 0 (parseFrames node st).transformIMU
              (parseFrames node st).T_lidar_imu).2.1
          T_lidar_imu :=
            (tfLoopRun lookup 0 (parseFrames node st).transformIMU
              (parseFrames node st).T_lidar_imu).2.2 }
    else parseFrames node st) := rfl

/-- One unfolding step of the transform resolution loop. -/
theorem tfLoopRun_unfold (lookup : ℕ → Option Quat) (counter : ℕ)
    (tIMU : Bool) (T : Quat) :
    tfLoopRun lookup counter tIMU T =
    (match lookup (counter + 1) with
     | some Tfound =>
         if counter + 1 > 10 then (counter + 1, false, Tfound)
         else (counter + 1, tIMU, Tfound)
     | none =>
         if _h : counter + 1 > 10 then (counter + 1, false, T)
         else tfLoopRun lookup (counter + 1) tIMU T) := by
  rw [tfLoopRun]

/-- The fueled loop with enough fuel left agrees with the total loop and
exits with a final counter of at most 11. -/
theorem tfLoopFuel_spec (lookup : ℕ → Option Quat) :
    ∀ fuel counter tIMU T, counter ≤ 10 → 11 ≤ counter + fuel →
      tfLoopFuel lookup fuel counter tIMU T =
        some (tfLoopRun lookup counter tIMU T) ∧
      (tfLoopRun lookup counter tIMU T).1 ≤ 11 := by
  intro fuel
  induction fuel with
  | zero => intro counter tIMU T h1 h2; omega
  | succ fuel ih =>
      intro counter tIMU T h1 h2
      rw [tfLoopFuel, tfLoopRun_unfold]
      cases hl : lookup (counter + 1) with
      | some Tf =>
          by_cases hc : counter + 1 > 10 <;> simp [hc] <;> omega
      | none =>
          by_cases hc : counter + 1 > 10
          · simp [hc]; omega
          · simp only [hc, if_false]
            exact ih (counter + 1) tIMU T (by omega) (by omega)

/-- When every lookup attempt fails, the loop ends with the transform flag
cleared, whatever the starting counter below the bound. -/
theorem tfLoopRun_exhaust (lookup : ℕ → Option Quat)
    (hfail : ∀ n, lookup n = none) :
    ∀ fuel counter tIMU T, 11 ≤ counter + fuel →
      (tfLoopRun lookup counter tIMU T).2.1 = false := by
  intro fuel
  induction fuel with
  | zero =>
      intro counter tIMU T h
      rw [tfLoopRun_unfold]
      simp [hfail, show counter + 1 > 10 by omega]
  | succ fuel ih =>
      intro counter tIMU T h
      rw [tfLoopRun_unfold]
      by_cases hc : counter + 1 > 10
      · simp [hfail, hc]
      · simp only [hfail, hc, if_false]
        exact ih (counter + 1) tIMU T (by omega)

/-- The boolean returned by `setupROS` is exactly option validity. -/
theorem setupROS_success_eq (lookup : ℕ → Option Quat)
    (node : NodeHandleParams) (pn : PrivateNodeParams) (st : ScanRegState)
    (cfg : RegistrationParams) :
    (setupROS lookup node pn st cfg).success = suppliedValid node pn cfg := by
  simp only [setupROS]
  split <;> simp_all [parseParams_success_eq]

/-- The member state returned by `setupROS` is the one produced by
`parseParams` on the reset state, on success and on failure alike. -/
theorem setupROS_state_eq (lookup : ℕ → Option Quat)
    (node : NodeHandleParams) (pn : PrivateNodeParams) (st : ScanRegState)
    (cfg : RegistrationParams) :
    (setupROS lookup node pn st cfg).state =
      (parseParams lookup node pn (resetState st) cfg).state := by
  simp only [setupROS, resetState]
  split <;> rfl

/-- The configuration returned by `setupROS` is the one produced by
`parseParams`, on success and on failure alike. -/
theorem setupROS_config_eq (lookup : ℕ → Option Quat)
    (node : NodeHandleParams) (pn : PrivateNodeParams) (st : ScanRegState)
    (cfg : RegistrationParams) :
    (setupROS lookup node pn st cfg).config =
      (parseParams lookup node pn (resetState st) cfg).config := by
  simp only [setupROS, resetState]
  split <;> rfl

/-- C1: for every inertial sample processed by `handleIMUMessage`, the
stored gravity-compensated acceleration is obtained from the raw linear
acceleration of the (possibly rotated) sample by subtracting, axis by
axis, the gravity component — the constant 9.81 projected through sine and
cosine of the roll and pitch stored alongside it, which are exactly the
roll and pitch extracted from the orientation quaternion of the sample. -/
theorem C1_gravity_compensation (sinf cosf : ℚ → ℚ) (rpy : Quat → ℚ × ℚ × ℚ)
    (st : ScanRegState) (imuIn : Imu) :
    (handleIMUMessage sinf cosf rpy st imuIn).acceleration =
      { x := (rotatedSample st imuIn).linear_acceleration.y -
          sinf (rpy (rotatedSample st imuIn).orientation).1 *
          cosf (rpy (rotatedSample st imuIn).orientation).2.1 * (9.81 : ℚ)
        y := (rotatedSample st imuIn).linear_acceleration.z -
          cosf (rpy (rotatedSample st imuIn).orientation).1 *
          cosf (rpy (rotatedSample st imuIn).orientation).2.1 * (9.81 : ℚ)
        z := (rotatedSample st imuIn).linear_acceleration.x +
          sinf (rpy (rotatedSample st imuIn).orientation).2.1 * (9.81 : ℚ) } ∧
    (handleIMUMessage sinf cosf rpy st imuIn).roll =
      (rpy (rotatedSample st imuIn).orientation).1 ∧
    (handleIMUMessage sinf cosf rpy st imuIn).pitch =
      (rpy (rotatedSample st imuIn).orientation).2.1 :=
  ⟨rfl, rfl, rfl⟩

/-- C2: `parseParams` returns true exactly when every supplied option
satisfies its constraint, and an out-of-range supplied value makes
`setupROS` return false as well. -/
theorem C2_success_iff_valid (lookup : ℕ → Option Quat)
    (node : NodeHandleParams) (pn : PrivateNodeParams) (st : ScanRegState)
    (cfg : RegistrationParams) :
    ((parseParams lookup node pn st cfg).success = true ↔
      suppliedValid node pn cfg = true) ∧
    ((setupROS lookup node pn st cfg).success = true ↔
      suppliedValid node pn cfg = true) := by
  rw [parseParams_success_eq, setupROS_success_eq]
  exact ⟨Iff.rfl, Iff.rfl⟩

/-- C2 witness: with no option supplied both calls report success. -/
theorem C2_success_iff_valid_witness :
    (parseParams exLookupNone exNodeNone exPnNone exState exConfig).success = true ∧
    (setupROS exLookupNone exNodeNone exPnNone exState exConfig).success = true :=
  ⟨(C2_success_iff_valid exLookupNone exNodeNone exPnNone exState exConfig).1.mpr rfl,
   (C2_success_iff_valid exLookupNone exNodeNone exPnNone exState exConfig).2.mpr rfl⟩

/-- C3 counterexample: a call that supplies a valid scanPeriod of 1
together with an invalid imuHistorySize of 0 fails, yet the scanPeriod
field of the configuration has been mutated from its prior value 25 to
1 — the failed call does create partial state in config_out, refuting the
claim that no field of config_out is mutated. -/
theorem C3_counterexample :
    (setupROS exLookupNone exNodeValidScan exPnBadHistory exState exConfig).success = false ∧
    (setupROS exLookupNone exNodeValidScan exPnBadHistory exState exConfig).config.scanPeriod = 1 ∧
    exConfig.scanPeriod = 25 := by
  refine ⟨by decide, by decide, by decide⟩

/-- C3 (amended): a configuration error still aborts initialization —
`setupROS` returns false and registers no subscription and no
advertisement — but the abort is not atomic for config_out: fields whose
options were supplied with valid values keep their new values. -/
theorem C3_amended_abort_no_wiring (lookup : ℕ → Option Quat)
    (node : NodeHandleParams) (pn : PrivateNodeParams) (st : ScanRegState)
    (cfg : RegistrationParams) (h : suppliedValid node pn cfg = false) :
    (setupROS lookup node pn st cfg).success = false ∧
    (setupROS lookup node pn st cfg).subscriptions = [] ∧
    (setupROS lookup node pn st cfg).advertisements = [] := by
  have hps : (parseParams lookup node pn
      { st with transformIMU := false, imuFrame := "/imu",
                lidarFrame := "/camera", imuInputTopic := "/imu/data" }
      cfg).success = false := by
    rw [parseParams_success_eq]; exact h
  simp [setupROS, hps]

/-- C3 amended witness: the failing example registers no wiring. -/
theorem C3_amended_abort_no_wiring_witness :
    (setupROS exLookupNone exNodeValidScan exPnBadHistory exState exConfig).success = false ∧
    (setupROS exLookupNone exNodeValidScan exPnBadHistory exState exConfig).subscriptions = [] ∧
    (setupROS exLookupNone exNodeValidScan exPnBadHistory exState exConfig).advertisements = [] :=
  C3_amended_abort_no_wiring exLookupNone exNodeValidScan exPnBadHistory
    exState exConfig (by decide)

/-- C4: for every sequence of lookup outcomes — including the transform
never becoming available — eleven iterations of fuel always make the
resolution loop exit, the fueled loop agrees with the loop as written, and
the number of lookup attempts performed (the final counter) is at most
11. -/
theorem C4_loop_bounded (lookup : ℕ → Option Quat) (tIMU : Bool) (T : Quat) :
    tfLoopFuel lookup 11 0 tIMU T = some (tfLoopRun lookup 0 tIMU T) ∧
    (tfLoopRun lookup 0 tIMU T).1 ≤ 11 :=
  tfLoopFuel_spec lookup 11 0 tIMU T (by omega) (by omega)

/-- C5: when the transform never becomes available, `parseParams` ends
with the transform flag cleared, and its returned boolean — and hence the
one of `setupROS` — is still exactly option validity, unaffected by the
failed resolution. -/
theorem C5_exhaustion_disables_not_fatal (lookup : ℕ → Option Quat)
    (node : NodeHandleParams) (pn : PrivateNodeParams) (st : ScanRegState)
    (cfg : RegistrationParams) (hfail : ∀ n, lookup n = none) :
    (parseParams lookup node pn st cfg).state.transformIMU = false ∧
    (parseParams lookup node pn st cfg).success = suppliedValid node pn cfg ∧
    (setupROS lookup node pn st cfg).success = suppliedValid node pn cfg := by
  refine ⟨?_, parseParams_success_eq lookup node pn st cfg,
    setupROS_success_eq lookup node pn st cfg⟩
  rw [parseParams_state_eq]
  by_cases hb : (parseFrames node st).transformIMU = true
  · rw [if_pos hb]
    exact tfLoopRun_exhaust lookup hfail 11 0 _ _ (by omega)
  · rw [if_neg hb]
    simpa using hb

/-- C5 witness at a lookup sequence that always fails. -/
theorem C5_exhaustion_disables_not_fatal_witness :
    (parseParams exLookupNone exNodeNone exPnNone exState exConfig).state.transformIMU = false ∧
    (parseParams exLookupNone exNodeNone exPnNone exState exConfig).success =
      suppliedValid exNodeNone exPnNone exConfig ∧
    (setupROS exLookupNone exNodeNone exPnNone exState exConfig).success =
      suppliedValid exNodeNone exPnNone exConfig :=
  C5_exhaustion_disables_not_fatal exLookupNone exNodeNone exPnNone exState
    exConfig (fun _ => rfl)

/-- C6: `handleIMUMessage` feeds the downstream computation the rotated
sample exactly when the transform flag is set, and the incoming sample
unchanged when it is cleared. -/
theorem C6_rotation_dispatch (sinf cosf : ℚ → ℚ) (rpy : Quat → ℚ × ℚ × ℚ)
    (st : ScanRegState) (imuIn : Imu) :
    (st.transformIMU = true →
      handleIMUMessage sinf cosf rpy st imuIn =
        imuStateOf sinf cosf rpy (transformIMU imuIn st.T_lidar_imu)) ∧
    (st.transformIMU = false →
      handleIMUMessage sinf cosf rpy st imuIn =
        imuStateOf sinf cosf rpy imuIn) := by
  constructor <;> intro h <;> simp [handleIMUMessage, rotatedSample, h]

/-- C6 witness: with the transform flag cleared the sample is processed
unchanged. -/
theorem C6_rotation_dispatch_witness :
    handleIMUMessage exSin exCos exRpy exState exImu =
      imuStateOf exSin exCos exRpy exImu :=
  (C6_rotation_dispatch exSin exCos exRpy exState exImu).2 rfl

/-- C7: `publishResult` emits exactly six messages — the full cloud, the
sharp and less-sharp corner subsets, the flat and less-flat surface
subsets and the motion summary — every one stamped with the sweep start
time and the lidar frame id. -/
theorem C7_publish_six (st : ScanRegState) (d : SweepData) :
    (publishResult st d).length = 6 ∧
    (publishResult st d).map CloudMsg.cloud =
      [d.laserCloud, d.cornerPointsSharp, d.cornerPointsLessSharp,
       d.surfacePointsFlat, d.surfacePointsLessFlat, d.imuTransform] ∧
    (publishResult st d).map CloudMsg.stamp = List.replicate 6 d.sweepStart ∧
    (publishResult st d).map CloudMsg.frame = List.replicate 6 st.lidarFrame :=
  ⟨rfl, rfl, rfl, rfl⟩

/-- C8: when maxCornerSharp is supplied with a valid value v, the final
configuration holds maxCornerSharp = v and, when maxCornerLessSharp is
not supplied, the implied default 10v; a supplied maxCornerLessSharp is
validated against v — it overrides the default when at least v and is
rejected (failing the call, with the default kept) when below v. -/
theorem C8_lessSharp_default_override (lookup : ℕ → Option Quat)
    (node : NodeHandleParams) (pn : PrivateNodeParams) (st : ScanRegState)
    (cfg : RegistrationParams) (v : ℤ) (hv : pn.maxCornerSharp = some v)
    (h1 : 1 ≤ v) :
    (parseParams lookup node pn st cfg).config.maxCornerSharp = v ∧
    (pn.maxCornerLessSharp = none →
      (parseParams lookup node pn st cfg).config.maxCornerLessSharp = 10 * v) ∧
    (∀ w, pn.maxCornerLessSharp = some w →
      (v ≤ w →
        (parseParams lookup node pn st cfg).config.maxCornerLessSharp = w) ∧
      (w < v →
        (parseParams lookup node pn st cfg).success = false ∧
        (parseParams lookup node pn st cfg).config.maxCornerLessSharp = 10 * v)) := by
  have hnl : ¬(v < 1) := by omega
  have heff : effectiveMaxCornerSharp pn cfg = v := by
    simp [effectiveMaxCornerSharp, appliedGeOneInt, hv, hnl]
  refine ⟨?_, ?_, ?_⟩
  · rw [parseParams_config_eq]
    exact heff
  · intro h0
    rw [parseParams_config_eq]
    simp [appliedMaxCornerLessSharp, h0, appliedTimesTen, hv, hnl]
  · intro w hw
    constructor
    · intro hvw
      rw [parseParams_config_eq]
      simp [appliedMaxCornerLessSharp, hw, heff, show ¬(w < v) by omega]
    · intro hwv
      constructor
      · rw [parseParams_success_eq]
        simp [suppliedValid, optAll, hw, heff, show ¬(v ≤ w) by omega]
      · rw [parseParams_config_eq]
        simp [appliedMaxCornerLessSharp, hw, heff, hwv, appliedTimesTen, hv, hnl]

/-- C8 witness: maxCornerSharp = 3 supplied alone yields the implied
default 30. -/
theorem C8_lessSharp_default_override_witness :
    (parseParams exLookupNone exNodeNone exPnSharpOnly exState exConfig).config.maxCornerSharp = 3 ∧
    (parseParams exLookupNone exNodeNone exPnSharpOnly exState exConfig).config.maxCornerLessSharp = 10 * 3 :=
  ⟨(C8_lessSharp_default_override exLookupNone exNodeNone exPnSharpOnly
      exState exConfig 3 rfl (by decide)).1,
   (C8_lessSharp_default_override exLookupNone exNodeNone exPnSharpOnly
      exState exConfig 3 rfl (by decide)).2.1 rfl⟩

/-- C9 counterexample: supplying only maxCornerSharp = 3 leaves the
maxCornerLessSharp option absent, yet the maxCornerLessSharp field of the
configuration changes from its prior value 20 to the implied default 30 —
refuting the claim that a field whose option is absent is left
unchanged. -/
theorem C9_counterexample :
    exPnSharpOnly.maxCornerLessSharp = none ∧
    (parseParams exLookupNone exNodeNone exPnSharpOnly exState exConfig).config.maxCornerLessSharp = 30 ∧
    exConfig.maxCornerLessSharp = 20 :=
  ⟨rfl, by decide, rfl⟩

/-- C9 (amended): every configuration field whose option is absent keeps
its prior value, except maxCornerLessSharp: with its own option absent it
keeps its prior value when the maxCornerSharp option is absent, and also
when maxCornerSharp is supplied with an invalid value (the error branch
writes nothing), but it receives the implied default 10 * v when
maxCornerSharp is supplied with a valid value v; and with every option
absent `parseParams` returns true. -/
theorem C9_absent_options_frame (lookup : ℕ → Option Quat)
    (node : NodeHandleParams) (pn : PrivateNodeParams) (st : ScanRegState)
    (cfg : RegistrationParams) :
    (node.scanPeriod = none →
      (parseParams lookup node pn st cfg).config.scanPeriod = cfg.scanPeriod) ∧
    (pn.imuHistorySize = none →
      (parseParams lookup node pn st cfg).config.imuHistorySize = cfg.imuHistorySize) ∧
    (pn.featureRegions = none →
      (parseParams lookup node pn st cfg).config.nFeatureRegions = cfg.nFeatureRegions) ∧
    (pn.curvatureRegion = none →
      (parseParams lookup node pn st cfg).config.curvatureRegion = cfg.curvatureRegion) ∧
    (pn.maxCornerSharp = none →
      (parseParams lookup node pn st cfg).config.maxCornerSharp = cfg.maxCornerSharp) ∧
    (pn.maxCornerLessSharp = none → pn.maxCornerSharp = none →
      (parseParams lookup node pn st cfg).config.maxCornerLessSharp = cfg.maxCornerLessSharp) ∧
    (pn.maxCornerLessSharp = none → ∀ v, pn.maxCornerSharp = some v → v < 1 →
      (parseParams lookup node pn st cfg).config.maxCornerLessSharp = cfg.maxCornerLessSharp) ∧
    (pn.maxCornerLessSharp = none → ∀ v, pn.maxCornerSharp = some v → 1 ≤ v →
      (parseParams lookup node pn st cfg).config.maxCornerLessSharp = 10 * v) ∧
    (pn.maxSurfaceFlat = none →
      (parseParams lookup node pn st cfg).config.maxSurfaceFlat = cfg.maxSurfaceFlat) ∧
    (pn.surfaceCurvatureThreshold = none →
      (parseParams lookup node pn st cfg).config.surfaceCurvatureThreshold =
        cfg.surfaceCurvatureThreshold) ∧
    (pn.lessFlatFilterSize = none →
      (parseParams lookup node pn st cfg).config.lessFlatFilterSize =
        cfg.lessFlatFilterSize) ∧
    ((node.scanPeriod = none ∧ pn.imuHistorySize = none ∧
      pn.featureRegions = none ∧ pn.curvatureRegion = none ∧
      pn.maxCornerSharp = none ∧ pn.maxCornerLessSharp = none ∧
      pn.maxSurfaceFlat = none ∧ pn.surfaceCurvatureThreshold = none ∧
      pn.lessFlatFilterSize = none) →
      (parseParams lookup node pn st cfg).success = true) := by
  refine ⟨?_, ?_, ?_, ?_, ?_, ?_, ?_, ?_, ?_, ?_, ?_, ?_⟩
  · intro h; rw [parseParams_config_eq]; simp [appliedPosFloat, h]
  · intro h; rw [parseParams_config_eq]; simp [appliedGeOneInt, h]
  · intro h; rw [parseParams_config_eq]; simp [appliedGeOneInt, h]
  · intro h; rw [parseParams_config_eq]; simp [appliedGeOneInt, h]
  · intro h; rw [parseParams_config_eq]
    simp [effectiveMaxCornerSharp, appliedGeOneInt, h]
  · intro h6 h5; rw [parseParams_config_eq]
    simp [appliedMaxCornerLessSharp, appliedTimesTen, h5, h6]
  · intro h6 v hv hlt; rw [parseParams_config_eq]
    simp [appliedMaxCornerLessSharp, appliedTimesTen, h6, hv, hlt]
  · intro h6 v hv hge; rw [parseParams_config_eq]
    simp [appliedMaxCornerLessSharp, appliedTimesTen, h6, hv,
      show ¬(v < 1) by omega]
  · intro h; rw [parseParams_config_eq]; simp [appliedGeOneInt, h]
  · intro h; rw [parseParams_config_eq]; simp [appliedThreshold, h]
  · intro h; rw [parseParams_config_eq]; simp [appliedThreshold, h]
  · rintro ⟨h1, h2, h3, h4, h5, h6, h7, h8, h9⟩
    rw [parseParams_success_eq]
    simp [suppliedValid, optAll, h1, h2, h3, h4, h5, h6, h7, h8, h9]

/-- C9 amended witness: with no option supplied the call succeeds and the
scanPeriod field is untouched, and with only an invalid maxCornerSharp
supplied the absent maxCornerLessSharp field is untouched as well. -/
theorem C9_absent_options_frame_witness :
    (parseParams exLookupNone exNodeNone exPnNone exState exConfig).config.scanPeriod =
      exConfig.scanPeriod ∧
    (parseParams exLookupNone exNodeNone exPnSharpInvalid exState exConfig).config.maxCornerLessSharp =
      exConfig.maxCornerLessSharp ∧
    (parseParams exLookupNone exNodeNone exPnNone exState exConfig).success = true :=
  ⟨(C9_absent_options_frame exLookupNone exNodeNone exPnNone exState exConfig).1 rfl,
   (C9_absent_options_frame exLookupNone exNodeNone exPnSharpInvalid exState
      exConfig).2.2.2.2.2.2.1 rfl 0 rfl (by decide),
   (C9_absent_options_frame exLookupNone exNodeNone exPnNone exState
      exConfig).2.2.2.2.2.2.2.2.2.2.2 ⟨rfl, rfl, rfl, rfl, rfl, rfl, rfl, rfl, rfl⟩⟩

/-- C10: after any call to `setupROS`, every defaulted member field whose
option was not supplied holds its default: lidar frame "/camera", IMU
frame "/imu", IMU input topic "/imu/data", transform flag false. -/
theorem C10_setup_defaults (lookup : ℕ → Option Quat)
    (node : NodeHandleParams) (pn : PrivateNodeParams) (st : ScanRegState)
    (cfg : RegistrationParams) :
    (node.lidarFrame = none →
      (setupROS lookup node pn st cfg).state.lidarFrame = "/camera") ∧
    (node.imuFrame = none →
      (setupROS lookup node pn st cfg).state.imuFrame = "/imu") ∧
    (node.imuInputTopic = none →
      (setupROS lookup node pn st cfg).state.imuInputTopic = "/imu/data") ∧
    (node.transformImuData = none →
      (setupROS lookup node pn st cfg).state.transformIMU = false) := by
  refine ⟨?_, ?_, ?_, ?_⟩ <;> intro h <;>
    simp only [setupROS_state_eq, parseParams_state_eq, parseFrames_eq] <;>
    split <;> simp_all [resetState]

/-- C10 witness: with no option supplied all four defaults hold. -/
theorem C10_setup_defaults_witness :
    (setupROS exLookupNone exNodeNone exPnNone exState exConfig).state.lidarFrame = "/camera" ∧
    (setupROS exLookupNone exNodeNone exPnNone exState exConfig).state.imuFrame = "/imu" ∧
    (setupROS exLookupNone exNodeNone exPnNone exState exConfig).state.imuInputTopic = "/imu/data" ∧
    (setupROS exLookupNone exNodeNone exPnNone exState exConfig).state.transformIMU = false :=
  ⟨(C10_setup_defaults exLookupNone exNodeNone exPnNone exState exConfig).1 rfl,
   (C10_setup_defaults exLookupNone exNodeNone exPnNone exState exConfig).2.1 rfl,
   (C10_setup_defaults exLookupNone exNodeNone exPnNone exState exConfig).2.2.1 rfl,
   (C10_setup_defaults exLookupNone exNodeNone exPnNone exState exConfig).2.2.2 rfl⟩

end Loam
